import Mathlib

/-!
# Verification of the chopsticks cluster-coordination and metrics plane

A shallow embedding, in Lean 4, of the parts of the `sabaini/chopsticks`
repository that the specification's claims are about:

* the Juju charm's coordinator state machine and action handlers
  (`charm/src/charm.py`),
* the metrics-daemon supervisor's stale-file cleanup
  (`src/chopsticks/metrics/daemon.py`),
* the Prometheus exporter (`src/chopsticks/metrics/prometheus_exporter.py`),
* the derived metric fields of `record_operation_metric`
  (`src/chopsticks/workloads/base_metrics_workload.py`).

Python machine reals (floats) are modelled as rationals; Python `datetime`
values as rational seconds since the epoch; Python's `str(float)` rendering is
kept abstract as an explicit function argument wherever a float is interpolated
into a string.  Dynamically-typed Python values that flow through the charm's
action parameters and config are modelled by the small `PyVal` type together
with Python's truthiness, `or`, `int()` and `float()` semantics (the `int()` /
`float()` string parsers model the plain decimal forms, which are the only
forms that occur as charm parameters).
-/

/-! ## Generic string helpers -/

/-- Lexicographic comparison of character lists (the order Python's `sorted`
uses on strings of ASCII keys). -/
def charsLe : List Char → List Char → Bool
  | [], _ => true
  | _ :: _, [] => false
  | a :: as, b :: bs => if a < b then true else if b < a then false else charsLe as bs

/-- String `≤` as a boolean, via `charsLe` on the underlying characters. -/
def strLe (a b : String) : Bool := charsLe a.data b.data

/-- Insert a key/value pair into a list sorted by key (helper for the model of
Python's `sorted(dict.items())`). -/
def insertByKey (p : String × String) : List (String × String) → List (String × String)
  | [] => [p]
  | q :: qs => if strLe p.1 q.1 then p :: q :: qs else q :: insertByKey p qs

/-- Sort a list of key/value pairs by key: the model of Python's
`sorted(labels.items())` (keys are pairwise distinct wherever this is used). -/
def sortByKey (l : List (String × String)) : List (String × String) :=
  l.foldr insertByKey []

/-- `seqPrefix pat l` holds when `pat` is an initial segment of `l`. -/
def seqPrefix : List Char → List Char → Bool
  | [], _ => true
  | _ :: _, [] => false
  | a :: as, b :: bs => a == b && seqPrefix as bs

/-- `hasSeq pat l`: `pat` occurs contiguously somewhere in `l`. -/
def hasSeq (pat : List Char) : List Char → Bool
  | [] => pat.isEmpty
  | c :: rest => seqPrefix pat (c :: rest) || hasSeq pat rest

/-- Substring containment, the model of Python's `needle in haystack`. -/
def strContains (haystack needle : String) : Bool :=
  hasSeq needle.data haystack.data

/-- Drop leading and trailing whitespace: the model of Python's `str.strip()`
as applied by `int()` / `float()` before parsing. -/
def trimChars (cs : List Char) : List Char :=
  ((cs.dropWhile Char.isWhitespace).reverse.dropWhile Char.isWhitespace).reverse

/-- Value of a digit string, most significant digit first. -/
def digitsVal (cs : List Char) : ℕ :=
  cs.foldl (fun acc c => acc * 10 + (c.toNat - 48)) 0

/-- Parse an optionally signed decimal integer, the model of Python's
`int(str)` (underscore separators and non-decimal bases are not modelled; they
do not occur as charm parameters). -/
def pyParseInt (s : String) : Option ℤ :=
  let body : List Char → Option ℤ := fun cs =>
    if cs ≠ [] ∧ cs.all Char.isDigit then some (digitsVal cs) else none
  match trimChars s.data with
  | [] => none
  | '+' :: rest => body rest
  | '-' :: rest => (body rest).map Neg.neg
  | cs => body cs

/-- Parse an unsigned decimal float body (`"1"`, `"1."`, `".5"`, `"1.5"`). -/
def parseUnsignedFloat (cs : List Char) : Option ℚ :=
  let ip := cs.takeWhile Char.isDigit
  match cs.dropWhile Char.isDigit with
  | [] => if ip = [] then none else some (digitsVal ip : ℚ)
  | '.' :: fr =>
      if fr.all Char.isDigit ∧ (ip ≠ [] ∨ fr ≠ []) then
        some ((digitsVal ip : ℚ) + (digitsVal fr : ℚ) / 10 ^ fr.length)
      else none
  | _ => none

/-- Parse an optionally signed decimal float, the model of Python's
`float(str)` on the plain decimal forms (exponents, `inf` and `nan` are not
modelled; they do not occur as charm parameters). -/
def pyParseFloat (s : String) : Option ℚ :=
  match trimChars s.data with
  | [] => none
  | '+' :: rest => parseUnsignedFloat rest
  | '-' :: rest => (parseUnsignedFloat rest).map Neg.neg
  | cs => parseUnsignedFloat cs

/-! ## Python dynamic values -/

/-- A dynamically-typed Python value as it occurs in charm action parameters,
charm config entries and action results.  `none` doubles as Python `None` and
"key absent" (Juju never delivers an explicit `None` parameter value). -/
inductive PyVal where
  | none
  | str (s : String)
  | int (n : ℤ)
  | float (q : ℚ)
  | bool (b : Bool)
deriving DecidableEq

/-- Python truthiness of a `PyVal`. -/
def PyVal.truthy : PyVal → Bool
  | .none => false
  | .str s => !(s == "")
  | .int n => decide (n ≠ 0)
  | .float q => decide (q ≠ 0)
  | .bool b => b

/-- Python's short-circuiting `a or b`. -/
def pyOr (a b : PyVal) : PyVal := if a.truthy then a else b

/-- Truncation of a rational toward zero, the model of Python's `int(float)`. -/
def ratTruncZ (q : ℚ) : ℤ := Int.sign q.num * ((q.num.natAbs / q.den : ℕ) : ℤ)

/-- Python's `int(x)`: `Option.none` models the `TypeError` / `ValueError`
raised on unconvertible values. -/
def pyToInt : PyVal → Option ℤ
  | .none => Option.none
  | .str s => pyParseInt s
  | .int n => some n
  | .float q => some (ratTruncZ q)
  | .bool b => some (if b then 1 else 0)

/-- Python's `float(x)`: `Option.none` models the `TypeError` / `ValueError`
raised on unconvertible values. -/
def pyToFloat : PyVal → Option ℚ
  | .none => Option.none
  | .str s => pyParseFloat s
  | .int n => some (n : ℚ)
  | .float q => some q
  | .bool b => some (if b then 1 else 0)

/-- Python's `str(x)` for the values the charm interpolates into messages.
`showFloat` is the (abstract) rendering of a Python float. -/
def pyStr (showFloat : ℚ → String) : PyVal → String
  | .none => "None"
  | .str s => s
  | .int n => toString n
  | .float q => showFloat q
  | .bool b => cond b "True" "False"

/-! ## Path helpers -/

/-- Whether a path string is absolute. -/
def isAbsPath (s : String) : Bool :=
  match s.data with
  | [] => false
  | c :: _ => c == '/'

/-- `pathlib` join: `Path(a) / b` keeps `b` alone when `b` is absolute. -/
def joinPath (a b : String) : String :=
  if isAbsPath b then b else a ++ "/" ++ b

/-! ## Charm embedding (`charm/src/charm.py`)

The coordinator is event-serial, so each handler is a pure function from the
unit's observable state (peer databag, local systemd services, filesystem) and
its read-only environment (leadership flag, charm config, peers, host facts)
to a new state, plus an action outcome for action handlers.  Systemd unit-file
contents are not tracked (no claim is about them); `systemctl daemon-reload`
and `systemctl stop` never raise in the source (`stop` has no `check=True`),
while `systemctl start` runs with `check=True` and its success is an
environment oracle. -/

def REPO_DIR : String := "/opt/chopsticks/src"

def DATA_DIR : String := "/var/lib/chopsticks"

def LEADER_SERVICE : String := "chopsticks-leader"

def LEADER_WEBUI_SERVICE : String := "chopsticks-leader-webui"

def WORKER_SERVICE : String := "chopsticks-worker"

/-- A Juju databag: a finite string-to-string mapping. -/
def Databag := List (String × String)
deriving DecidableEq

/-- Databag lookup. -/
def dbGet (d : Databag) (k : String) : Option String :=
  match d with
  | [] => Option.none
  | (k', v) :: rest => if k' == k then some v else dbGet rest k

/-- Databag update: replace the entry for `k`, or append it. -/
def dbSet (d : Databag) (k v : String) : Databag :=
  match d with
  | [] => [(k, v)]
  | (k', v') :: rest => if k' == k then (k, v) :: rest else (k', v') :: dbSet rest k v

/-- Running state of the three chopsticks systemd services. -/
structure Services where
  leader : Bool
  leaderWebui : Bool
  worker : Bool
deriving DecidableEq

/-- Juju unit presentation status. -/
inductive UnitStatus where
  | maintenance (msg : String)
  | blocked (msg : String)
  | waiting (msg : String)
  | active (msg : String)
deriving DecidableEq

/-- The unit's mutable observable state. -/
structure CharmState where
  /-- The `cluster` peer relation's app databag; `none` models the relation
  not (yet) existing. -/
  peerRel : Option Databag
  services : Services
  /-- Directories that exist under the data dir (`mkdir` adds; parents of
  `DATA_DIR` are presumed present and not tracked). -/
  dirs : List String
  /-- Archive files created in `/tmp` by `fetch-metrics`. -/
  archives : List String
  unitStatus : UnitStatus
deriving DecidableEq

/-- Read-only environment of a charm event: the membership service's view and
host facts.  `config` maps a charm config key to its value (`PyVal.none` when
unset); `startOk` tells whether `systemctl start` of a service succeeds;
`subprocessErr` is the text of the `CalledProcessError` when it does not. -/
structure CharmEnv where
  isLeader : Bool
  config : String → PyVal
  /-- `len(rel.units)`: peer units on the cluster relation, excluding self. -/
  peerUnitCount : ℕ
  /-- This unit's private IP, `""` when unavailable. -/
  privateIp : String
  unitName : String
  /-- Which paths are existing regular files. -/
  isFile : String → Bool
  /-- Directory listing (`Path.glob("*")`), as path strings. -/
  listDir : String → List String
  /-- Text contents of a file. -/
  fileText : String → String
  startOk : String → Bool
  subprocessErr : String
  /-- Python's `str()` on a float. -/
  showFloat : ℚ → String

/-- Outcome of an action handler: `event.fail`, `event.set_results`, or an
uncaught Python exception (which Juju surfaces as an errored action). -/
inductive ActionOutcome where
  | fail (msg : String)
  | results (r : List (String × PyVal))
  | pythonError (msg : String)
deriving DecidableEq

/-- `event.params.get(key, default)` over the param mapping, where an absent
key is modelled by `PyVal.none`. -/
def paramsGetD (params : String → PyVal) (k : String) (d : PyVal) : PyVal :=
  match params k with
  | .none => d
  | v => v

/-- `_get_peer_data`: read a key from the peer app databag, with a default
when the relation or the key is absent. -/
def get_peer_data (s : CharmState) (k dflt : String) : String :=
  match s.peerRel with
  | Option.none => dflt
  | some d => (dbGet d k).getD dflt

/-- `_set_peer_data`: leader-only write to the peer app databag; silently
skipped on a non-leader or without the relation. -/
def set_peer_data (env : CharmEnv) (s : CharmState) (k v : String) : CharmState :=
  if !env.isLeader then s
  else
    match s.peerRel with
    | Option.none => s
    | some d => { s with peerRel := some (dbSet d k v) }

/-- `_is_config_valid`: the three required S3 config values are truthy. -/
def is_config_valid (config : String → PyVal) : Bool :=
  (config "s3-endpoint").truthy && (config "s3-access-key").truthy
    && (config "s3-secret-key").truthy

/-- `systemctl stop` of one of the three services (never raises). -/
def stopService (sv : Services) (name : String) : Services :=
  if name == LEADER_SERVICE then { sv with leader := false }
  else if name == LEADER_WEBUI_SERVICE then { sv with leaderWebui := false }
  else if name == WORKER_SERVICE then { sv with worker := false }
  else sv

/-- Effect of a successful `systemctl start` of one of the three services. -/
def startServiceEff (sv : Services) (name : String) : Services :=
  if name == LEADER_SERVICE then { sv with leader := true }
  else if name == LEADER_WEBUI_SERVICE then { sv with leaderWebui := true }
  else if name == WORKER_SERVICE then { sv with worker := true }
  else sv

/-- `_is_service_running` for a given service name. -/
def isServiceRunning (sv : Services) (name : String) : Bool :=
  if name == LEADER_SERVICE then sv.leader
  else if name == LEADER_WEBUI_SERVICE then sv.leaderWebui
  else if name == WORKER_SERVICE then sv.worker
  else false

/-- `_stop_all_services`: stop leader, web-UI leader and worker services. -/
def stop_all_services (s : CharmState) : CharmState :=
  { s with services :=
      stopService (stopService (stopService s.services LEADER_SERVICE)
        LEADER_WEBUI_SERVICE) WORKER_SERVICE }

/-- `_count_peer_units`: `0` without the relation, else the peer count. -/
def count_peer_units (env : CharmEnv) (s : CharmState) : ℕ :=
  match s.peerRel with
  | Option.none => 0
  | some _ => env.peerUnitCount

/-- `_publish_leader_address`: on the leader with a known private IP, write
`leader_address` and `leader_unit` to the peer databag. -/
def publish_leader_address (env : CharmEnv) (s : CharmState) : CharmState :=
  if !env.isLeader then s
  else if env.privateIp == "" then s
  else set_peer_data env (set_peer_data env s "leader_address" env.privateIp)
    "leader_unit" env.unitName

/-- `_set_ready_status`: the presentation-status projection. -/
def set_ready_status (env : CharmEnv) (s : CharmState) : CharmState :=
  if !is_config_valid env.config then
    { s with unitStatus := .blocked "Missing S3 configuration" }
  else
    let testState := get_peer_data s "test_state" "idle"
    if env.isLeader then
      let msg := "Leader ready (" ++ toString (count_peer_units env s)
        ++ " workers, test: " ++ testState ++ ")"
      { s with unitStatus := .active msg }
    else
      let leaderAddress := get_peer_data s "leader_address" ""
      if leaderAddress == "" then
        { s with unitStatus := .waiting "Waiting for leader address" }
      else
        let msg := "Worker " ++ (if s.services.worker then "connected" else "ready")
          ++ " -> " ++ leaderAddress
        { s with unitStatus := .active msg }

/-- `mkdir(parents=True, exist_ok=True)` on a tracked directory. -/
def mkdirP (s : CharmState) (dir : String) : CharmState :=
  if s.dirs.contains dir then s else { s with dirs := dir :: s.dirs }

/-- `_on_leader_elected`: stop all services, publish the leader address, mark
a previously running test as failed (else idle), recompute status. -/
def on_leader_elected (env : CharmEnv) (s : CharmState) : CharmState :=
  let s1 := stop_all_services s
  let s2 := publish_leader_address env s1
  let prev := get_peer_data s2 "test_state" "idle"
  let s3 :=
    if prev == "running" then set_peer_data env s2 "test_state" "failed"
    else set_peer_data env s2 "test_state" "idle"
  set_ready_status env s3

/-- `_on_start_test_action`.  `freshId` is the `uuid.uuid4()` drawn for this
invocation; `params` are the action parameters.  The systemd unit file
rendered for the leader is not tracked; starting the service succeeds exactly
when `env.startOk` says so, and a failure takes the `CalledProcessError`
path (`test_state=failed`, `event.fail`). -/
def on_start_test_action (env : CharmEnv) (freshId : String)
    (params : String → PyVal) (s : CharmState) : ActionOutcome × CharmState :=
  if !env.isLeader then (.fail "start-test must be run on the leader unit", s)
  else if !is_config_valid env.config then (.fail "S3 configuration is incomplete", s)
  else
    let currentState := get_peer_data s "test_state" "idle"
    if currentState == "running" then (.fail "A test is already running", s)
    else
      let users := pyOr (params "users") (env.config "locust-users")
      let spawnRate := pyOr (params "spawn-rate") (env.config "locust-spawn-rate")
      let duration := pyOr (params "duration") (env.config "locust-duration")
      let scenario := pyOr (params "scenario-file") (env.config "scenario-file")
      let headless := paramsGetD params "headless" (.bool true)
      match pyToInt users, pyToFloat spawnRate with
      | some usersInt, some spawnRateF =>
        match scenario with
        | .str sc =>
          let scenarioPath := joinPath REPO_DIR sc
          if !env.isFile scenarioPath then
            (.fail ("Scenario file not found: " ++ scenarioPath), s)
          else
            let metricsDir := joinPath DATA_DIR freshId
            let s1 := mkdirP s metricsDir
            let svAfterStops :=
              stopService (stopService s1.services LEADER_SERVICE) LEADER_WEBUI_SERVICE
            let s2 := { s1 with services := svAfterStops }
            let svcName := if headless.truthy then LEADER_SERVICE else LEADER_WEBUI_SERVICE
            if env.startOk svcName then
              let s3 := { s2 with services := startServiceEff s2.services svcName }
              let s4 := set_peer_data env s3 "test_state" "running"
              let s5 := set_peer_data env s4 "test_run_id" freshId
              let s6 := set_peer_data env s5 "scenario_file" sc
              let result :=
                [("test-run-id", PyVal.str freshId), ("status", PyVal.str "started"),
                 ("users", PyVal.int usersInt), ("spawn-rate", PyVal.float spawnRateF),
                 ("duration", duration), ("scenario", PyVal.str sc),
                 ("headless", headless), ("metrics-dir", PyVal.str metricsDir)]
                ++ (if headless.truthy then []
                    else [("web-ui", PyVal.str ("http://" ++ env.privateIp ++ ":"
                      ++ pyStr env.showFloat (env.config "locust-web-port")))])
              (.results result, s6)
            else
              let s3 := set_peer_data env s2 "test_state" "failed"
              (.fail ("Failed to start test: " ++ env.subprocessErr), s3)
        | _ =>
          -- `REPO_DIR / scenario` with a non-`str`, non-path operand raises
          -- an uncaught `TypeError`.
          (.pythonError "unsupported operand type for /", s)
      | _, _ => (.fail "Invalid users or spawn-rate; must be numeric", s)

/-- `_on_stop_test_action`: leader-only; stops both leader service variants,
sets `test_state=stopped`, echoes the last `test_run_id` (default
`"unknown"`).  The `CalledProcessError` branch is unreachable: `_stop_service`
runs without `check=True` and `_set_peer_data` cannot raise. -/
def on_stop_test_action (env : CharmEnv) (s : CharmState) : ActionOutcome × CharmState :=
  if !env.isLeader then (.fail "stop-test must be run on the leader unit", s)
  else
    let runId := get_peer_data s "test_run_id" "unknown"
    let svAfterStops :=
      stopService (stopService s.services LEADER_SERVICE) LEADER_WEBUI_SERVICE
    let s1 := { s with services := svAfterStops }
    let s2 := set_peer_data env s1 "test_state" "stopped"
    (.results [("status", PyVal.str "stopped"), ("test-run-id", PyVal.str runId)], s2)

/-- `_on_test_status_action`: allowed on any unit; reports a snapshot and
never fails. -/
def on_test_status_action (env : CharmEnv) (s : CharmState) :
    ActionOutcome × CharmState :=
  let testState := get_peer_data s "test_state" "idle"
  let runId := get_peer_data s "test_run_id" ""
  let leaderAddress := get_peer_data s "leader_address" ""
  (.results
    [("test-state", PyVal.str testState), ("test-run-id", PyVal.str runId),
     ("leader-address", PyVal.str leaderAddress), ("is-leader", PyVal.bool env.isLeader),
     ("leader-running", PyVal.bool (s.services.leader || s.services.leaderWebui)),
     ("worker-running", PyVal.bool s.services.worker),
     ("worker-count", PyVal.int (count_peer_units env s))], s)

/-- `_on_fetch_metrics_action`: leader-only; requires a recorded
`test_run_id` and an existing run directory; packages the run directory into
a `/tmp` tarball and reports its contents. -/
def on_fetch_metrics_action (env : CharmEnv) (params : String → PyVal)
    (s : CharmState) : ActionOutcome × CharmState :=
  if !env.isLeader then (.fail "fetch-metrics must be run on the leader unit", s)
  else
    let runId := get_peer_data s "test_run_id" ""
    if runId == "" then (.fail "No test run found", s)
    else
      let metricsDir := joinPath DATA_DIR runId
      if !s.dirs.contains metricsDir then
        (.fail ("Metrics directory not found: " ++ metricsDir), s)
      else
        let testState := get_peer_data s "test_state" "idle"
        let fmt := paramsGetD params "format" (.str "summary")
        let files := env.listDir metricsDir
        let archivePath := "/tmp/testrun-" ++ runId ++ ".tar.gz"
        let s1 := { s with archives :=
            if s.archives.contains archivePath then s.archives
            else archivePath :: s.archives }
        let base :=
          [("test-run-id", PyVal.str runId), ("metrics-dir", PyVal.str metricsDir),
           ("files", PyVal.str (String.intercalate ", " files)),
           ("test-state", PyVal.str testState), ("archive", PyVal.str archivePath),
           ("scp-command", PyVal.str ("juju scp " ++ env.unitName ++ ":"
             ++ archivePath ++ " ."))]
        let withWarn := base ++
          (if testState == "running" then
            [("warning", PyVal.str "Test is still running; metrics may be incomplete")]
          else [])
        let statsFile := joinPath metricsDir "metrics_stats.csv"
        let withPreview := withWarn ++
          (if fmt == PyVal.str "summary" then
            if env.isFile statsFile then
              [("stats-preview", PyVal.str ⟨(env.fileText statsFile).data.take 2000⟩)]
            else []
          else [])
        (.results withPreview, s1)

/-! ## Daemon supervisor embedding (`src/chopsticks/metrics/daemon.py`)

`cleanup_stale_files` reads the world through `/proc`, `os.kill(pid, 0)` and
`lsof -ti :port`; these observations form `DaemonEnv`.  Its effects are
deletions of the control files plus `SIGTERM`s, returned as the list of
signalled pids. -/

/-- Observation environment of the supervisor on its host. -/
structure DaemonEnv where
  /-- `os.kill(pid, 0)` succeeds: the pid names a live process. -/
  live : ℤ → Bool
  /-- The argv of `/proc/<pid>/cmdline` (entries are null-separated in the
  file); `none` when the file does not exist. -/
  argv : ℤ → Option (List String)
  /-- Pids printed by `lsof -ti :<port>` for the configured port. -/
  portPids : List ℤ
  /-- `lsof` ran successfully within its timeout and its output parsed. -/
  lsofOk : Bool

/-- The daemon's on-disk control files. -/
structure DaemonFiles where
  /-- Text content of the PID file, `none` when absent. -/
  pidFileText : Option String
  stateFile : Bool
  socketFile : Bool
deriving DecidableEq

/-- The daemon argv signature the supervisor matches against. -/
def chopsticksSig : String := "chopsticks.metrics.server_daemon"

/-- `_is_chopsticks_process`: join the argv with spaces and look for the
daemon module path. -/
def is_chopsticks_process (env : DaemonEnv) (pid : ℤ) : Bool :=
  match env.argv pid with
  | Option.none => false
  | some args => strContains (String.intercalate " " args) chopsticksSig

/-- The port-cleanup tail of `cleanup_stale_files`: signal only pids holding
the port whose command line matches the daemon signature, then remove the
state file and the socket file. -/
def portCleanup (env : DaemonEnv) (files : DaemonFiles) : DaemonFiles × List ℤ :=
  let signalled := if env.lsofOk then env.portPids.filter (is_chopsticks_process env) else []
  ({ files with stateFile := false, socketFile := false }, signalled)

/-- `cleanup_stale_files`: returns the control files afterwards and the pids
that were sent `SIGTERM`.  A live pid from the PID file that matches the
daemon signature causes an early return with nothing touched. -/
def cleanup_stale_files (env : DaemonEnv) (files : DaemonFiles) :
    DaemonFiles × List ℤ :=
  match files.pidFileText with
  | Option.none => portCleanup env files
  | some txt =>
    match pyParseInt txt with
    | Option.none => portCleanup env { files with pidFileText := Option.none }
    | some pid =>
      if env.live pid then
        if is_chopsticks_process env pid then (files, [])
        else portCleanup env { files with pidFileText := Option.none }
      else portCleanup env { files with pidFileText := Option.none }

/-! ## Metric records and derived fields
(`src/chopsticks/workloads/base_metrics_workload.py`, `metrics/models.py`) -/

/-- `OperationMetric` with `datetime`s as rational seconds and the two enum
fields as their `.value` strings (`metadata` is an uninterpreted string map). -/
structure OperationMetric where
  operation_id : String
  timestamp_start : ℚ
  timestamp_end : ℚ
  operation_type : String
  workload_type : String
  object_key : String
  object_size_bytes : ℕ
  duration_ms : ℚ
  throughput_mbps : ℚ
  success : Bool
  error_code : Option String := Option.none
  error_message : Option String := Option.none
  retry_count : ℕ := 0
  driver : String := ""
  user_id : String := ""
  metadata : List (String × String) := []
deriving DecidableEq

/-- The metric value built by `record_operation_metric` (the emission guards
and the IPC/collector sends around it are process wiring and carry no data).
`(end_time - start_time).total_seconds()` is the rational difference of the
two timestamps. -/
def record_operation_metric (workloadType driverName : String)
    (operationId : String) (operationType : String) (key : String)
    (sizeBytes : ℕ) (startTime endTime : ℚ) (success : Bool)
    (errorCode errorMsg : Option String) (userId : String) : OperationMetric :=
  let duration_ms := (endTime - startTime) * 1000
  let throughput_mbps :=
    if duration_ms > 0 then ((sizeBytes : ℚ) / 1024 / 1024) / (duration_ms / 1000) else 0
  { operation_id := operationId
    timestamp_start := startTime
    timestamp_end := endTime
    operation_type := operationType
    workload_type := workloadType
    object_key := key
    object_size_bytes := sizeBytes
    duration_ms := duration_ms
    throughput_mbps := throughput_mbps
    success := success
    error_code := errorCode
    error_message := errorMsg
    driver := driverName
    user_id := userId }

/-! ## Prometheus exporter embedding
(`src/chopsticks/metrics/prometheus_exporter.py`)

`self.metrics` is a `defaultdict(list)` that the exporter only ever indexes
with the four fixed family keys, so it is embedded as a structure with one
list field per family.  Python's `str(float)` rendering is the abstract
`showVal` argument of the rendering functions. -/

/-- Exporter state: per family, the list of `(value, labels)` observations in
ingestion order. -/
structure PrometheusExporter where
  nspace : String
  durationVals : List (ℚ × List (String × String)) := []
  sizeVals : List (ℚ × List (String × String)) := []
  throughputVals : List (ℚ × List (String × String)) := []
  totalVals : List (ℚ × List (String × String)) := []

/-- `PrometheusExporter(namespace="chopsticks")`. -/
def emptyExporter : PrometheusExporter := { nspace := "chopsticks" }

/-- The labels dict built by `add_operation_metric`, in insertion order. -/
def labelsOf (m : OperationMetric) : List (String × String) :=
  [("operation", m.operation_type), ("workload", m.workload_type),
   ("driver", m.driver), ("success", if m.success then "true" else "false")]

/-- `add_operation_metric`: append one observation to each family. -/
def add_operation_metric (m : OperationMetric) (e : PrometheusExporter) :
    PrometheusExporter :=
  let labels := labelsOf m
  { e with
    durationVals := e.durationVals ++ [(m.duration_ms / 1000, labels)]
    sizeVals := e.sizeVals ++ [((m.object_size_bytes : ℚ), labels)]
    throughputVals := e.throughputVals ++ [(m.throughput_mbps, labels)]
    totalVals := e.totalVals ++ [(1, labels)] }

/-- Ingest a sequence of records into the empty exporter. -/
def ingest (ms : List OperationMetric) : PrometheusExporter :=
  ms.foldl (fun e m => add_operation_metric m e) emptyExporter

/-- `_format_labels`: `\x7bk1="v1",k2="v2"\x7d` over the key-sorted items,
empty string for no labels. -/
def format_labels (labels : List (String × String)) : String :=
  if labels.isEmpty then ""
  else
    "\x7b"
      ++ String.intercalate "," ((sortByKey labels).map fun p => p.1 ++ "=\"" ++ p.2 ++ "\"")
      ++ "\x7d"

/-- Splice an `le="..."` label into an already rendered label string, as the
histogram formatter does. -/
def spliceLe (labelStr le : String) : String :=
  if labelStr.data.getLast? == some '\x7d' then
    String.mk labelStr.data.dropLast ++ ",le=\"" ++ le ++ "\"" ++ "\x7d"
  else "\x7b" ++ "le=\"" ++ le ++ "\"" ++ "\x7d"

/-- Grouping step of the histogram formatter: append a value to its label
group (`defaultdict(list)`, so a new key goes to the end and groups keep
first-appearance order). -/
def appendAt (acc : List (String × List ℚ)) (k : String) (v : ℚ) :
    List (String × List ℚ) :=
  match acc with
  | [] => [(k, [v])]
  | (k', vs) :: rest =>
    if k' == k then (k', vs ++ [v]) :: rest else (k', vs) :: appendAt rest k v

/-- `by_labels` of `_format_histogram`: observations grouped by rendered
label string. -/
def histGroups (values : List (ℚ × List (String × String))) :
    List (String × List ℚ) :=
  values.foldl (fun acc p => appendAt acc (format_labels p.2) p.1) []

/-- Grouping step of the counter formatter (`defaultdict(int)` with `+=`). -/
def bumpAt (acc : List (String × ℚ)) (k : String) (v : ℚ) : List (String × ℚ) :=
  match acc with
  | [] => [(k, v)]
  | (k', t) :: rest =>
    if k' == k then (k', t + v) :: rest else (k', t) :: bumpAt rest k v

/-- `by_labels` of `_format_counter`: per label string, the sum of values. -/
def counterGroups (values : List (ℚ × List (String × String))) :
    List (String × ℚ) :=
  values.foldl (fun acc p => bumpAt acc (format_labels p.2) p.1) []

/-- Last-value grouping of `_format_gauge` (`dict` assignment keeps the
position of the first insertion, the value of the last). -/
def setAt (acc : List (String × ℚ)) (k : String) (v : ℚ) : List (String × ℚ) :=
  match acc with
  | [] => [(k, v)]
  | (k', t) :: rest =>
    if k' == k then (k', v) :: rest else (k', t) :: setAt rest k v

/-- `by_labels` of `_format_gauge`. -/
def gaugeGroups (values : List (ℚ × List (String × String))) :
    List (String × ℚ) :=
  values.foldl (fun acc p => setAt acc (format_labels p.2) p.1) []

/-- Python's `sum(vals)` over rational observations. -/
def pySum (vals : List ℚ) : ℚ := vals.sum

/-- `_format_histogram`, as its list of output lines (the source joins them
with newlines; `export` joins everything with newlines as well, so the line
list is the faithful unit of rendering). -/
def format_histogram_lines (nspace helpText metricName : String)
    (buckets : List ℚ) (values : List (ℚ × List (String × String)))
    (showVal : ℚ → String) : List String :=
  let fullName := nspace ++ "_" ++ metricName
  let groups := histGroups values
  ["# HELP " ++ fullName ++ " " ++ helpText, "# TYPE " ++ fullName ++ " histogram"]
    ++ groups.flatMap (fun g =>
      let sortedVals := g.2.insertionSort (· ≤ ·)
      (buckets.map fun b =>
        fullName ++ "_bucket" ++ spliceLe g.1 (showVal b) ++ " "
          ++ toString (sortedVals.filter (fun v => decide (v ≤ b))).length)
      ++ [fullName ++ "_bucket" ++ spliceLe g.1 "+Inf" ++ " " ++ toString g.2.length,
          fullName ++ "_sum" ++ g.1 ++ " " ++ showVal (pySum g.2),
          fullName ++ "_count" ++ g.1 ++ " " ++ toString g.2.length])

/-- `_format_gauge`, as its list of output lines. -/
def format_gauge_lines (nspace name helpText : String)
    (values : List (ℚ × List (String × String))) (showVal : ℚ → String) :
    List String :=
  let fullName := nspace ++ "_" ++ name
  ["# HELP " ++ fullName ++ " " ++ helpText, "# TYPE " ++ fullName ++ " gauge"]
    ++ (gaugeGroups values).map fun g => fullName ++ g.1 ++ " " ++ showVal g.2

/-- `_format_counter`, as its list of output lines. -/
def format_counter_lines (nspace name helpText : String)
    (values : List (ℚ × List (String × String))) (showVal : ℚ → String) :
    List String :=
  let fullName := nspace ++ "_" ++ name
  ["# HELP " ++ fullName ++ " " ++ helpText, "# TYPE " ++ fullName ++ " counter"]
    ++ (counterGroups values).map fun g => fullName ++ g.1 ++ " " ++ showVal g.2

/-- The duration histogram's bucket upper bounds, as passed by `export`. -/
def durationBuckets : List ℚ := [0.01, 0.05, 0.1, 0.5, 1.0, 2.0, 5.0, 10.0]

/-- The size histogram's bucket upper bounds, as passed by `export`. -/
def sizeBuckets : List ℚ :=
  [1024, 10240, 102400, 1048576, 10485760, 104857600, 1073741824]

/-- The duration-histogram family lines of `export`. -/
def duration_family_lines (e : PrometheusExporter) (showVal : ℚ → String) :
    List String :=
  format_histogram_lines e.nspace "Duration of operations in seconds"
    "operation_duration_seconds" durationBuckets e.durationVals showVal

/-- All lines of `export` (the source joins per-family strings, themselves
newline-joined line lists, with newlines: the concatenation of the four
families' line lists). -/
def export_lines (e : PrometheusExporter) (showVal : ℚ → String) : List String :=
  duration_family_lines e showVal
    ++ format_histogram_lines e.nspace "Size of operations in bytes"
        "operation_size_bytes" sizeBuckets e.sizeVals showVal
    ++ format_gauge_lines e.nspace "operation_throughput_mbps"
        "Operation throughput in MB/s" e.throughputVals showVal
    ++ format_counter_lines e.nspace "operation_total"
        "Total number of operations" e.totalVals showVal

/-- `export`: the Prometheus text exposition. -/
def export_text (e : PrometheusExporter) (showVal : ℚ → String) : String :=
  String.intercalate "\n" (export_lines e showVal)

/-! ## Databag lemmas -/

theorem dbGet_dbSet (d : Databag) (k k' v : String) :
    dbGet (dbSet d k v) k' = if k == k' then some v else dbGet d k' := by
  induction d with
  | nil => simp [dbGet, dbSet]
  | cons p rest ih =>
    obtain ⟨a, b⟩ := p
    by_cases hak : a = k
    · subst hak
      by_cases hkk : a = k'
      · subst hkk; simp [dbGet, dbSet]
      · simp [dbGet, dbSet, hkk]
    · by_cases hak' : a = k'
      · subst hak'
        have hk : ¬(k = a) := fun h => hak h.symm
        simp [dbGet, dbSet, hak, hk]
      · simp [dbGet, dbSet, hak, hak', ih]

theorem dbGet_dbSet_same (d : Databag) (k v : String) :
    dbGet (dbSet d k v) k = some v := by
  simp [dbGet_dbSet]

theorem dbGet_dbSet_other (d : Databag) (k k' v : String) (h : k ≠ k') :
    dbGet (dbSet d k v) k' = dbGet d k' := by
  simp [dbGet_dbSet, h]

/-! ## C9: derived metric fields -/

/-- C9: for every recorded operation (whose end timestamp does not precede its
start), the emitted metric has `duration_ms = (end - start) * 1000` with
`duration_ms ≥ 0`, and
`throughput_mbps = (size_bytes / 2^20) / (duration_ms / 1000)` when
`duration_ms > 0`, else `0`. -/
theorem record_operation_metric_derived_fields
    (workloadType driverName operationId operationType key : String)
    (sizeBytes : ℕ) (startTime endTime : ℚ) (success : Bool)
    (errorCode errorMsg : Option String) (userId : String)
    (h : startTime ≤ endTime) :
    (record_operation_metric workloadType driverName operationId operationType key
        sizeBytes startTime endTime success errorCode errorMsg userId).duration_ms
      = (endTime - startTime) * 1000
    ∧ 0 ≤ (record_operation_metric workloadType driverName operationId operationType key
        sizeBytes startTime endTime success errorCode errorMsg userId).duration_ms
    ∧ (record_operation_metric workloadType driverName operationId operationType key
        sizeBytes startTime endTime success errorCode errorMsg userId).throughput_mbps
      = (if (record_operation_metric workloadType driverName operationId operationType key
            sizeBytes startTime endTime success errorCode errorMsg userId).duration_ms > 0
          then ((sizeBytes : ℚ) / 2 ^ 20)
            / ((record_operation_metric workloadType driverName operationId operationType key
                sizeBytes startTime endTime success errorCode errorMsg userId).duration_ms / 1000)
          else 0) := by
  refine ⟨rfl, ?_, ?_⟩
  · have h0 : (0 : ℚ) ≤ endTime - startTime := sub_nonneg.mpr h
    have h1 : (0 : ℚ) ≤ (endTime - startTime) * 1000 :=
      mul_nonneg h0 (by norm_num)
    simpa [record_operation_metric] using h1
  · simp only [record_operation_metric]
    have h20 : ((sizeBytes : ℚ) / 1024 / 1024) = (sizeBytes : ℚ) / 2 ^ 20 := by
      rw [div_div]; norm_num
    rw [h20]

/-- Witness for C9 at a concrete operation: a 1 MiB upload taking 2 seconds. -/
theorem record_operation_metric_derived_fields_witness :
    (record_operation_metric "s3" "s5cmd" "op1" "upload" "k" 1048576 0 2 true
        Option.none Option.none "u").duration_ms = (2 - 0) * 1000
    ∧ 0 ≤ (record_operation_metric "s3" "s5cmd" "op1" "upload" "k" 1048576 0 2 true
        Option.none Option.none "u").duration_ms
    ∧ (record_operation_metric "s3" "s5cmd" "op1" "upload" "k" 1048576 0 2 true
        Option.none Option.none "u").throughput_mbps
      = (if (record_operation_metric "s3" "s5cmd" "op1" "upload" "k" 1048576 0 2 true
            Option.none Option.none "u").duration_ms > 0
          then ((1048576 : ℚ) / 2 ^ 20)
            / ((record_operation_metric "s3" "s5cmd" "op1" "upload" "k" 1048576 0 2 true
                Option.none Option.none "u").duration_ms / 1000)
          else 0) :=
  record_operation_metric_derived_fields "s3" "s5cmd" "op1" "upload" "k" 1048576 0 2
    true Option.none Option.none "u" (by norm_num)

/-! ## C3: supervisor cleanup safety -/

/-- The pids `cleanup_stale_files` signals are either none at all or exactly
the port holders whose command line matches the daemon signature. -/
theorem cleanup_signalled_cases (env : DaemonEnv) (files : DaemonFiles) :
    (cleanup_stale_files env files).2 = []
    ∨ (cleanup_stale_files env files).2
        = env.portPids.filter (is_chopsticks_process env) := by
  unfold cleanup_stale_files portCleanup
  cases htxt : files.pidFileText with
  | none => by_cases h : env.lsofOk <;> simp [htxt, h]
  | some txt =>
    cases hp : pyParseInt txt with
    | none => by_cases h : env.lsofOk <;> simp [htxt, hp, h]
    | some pid =>
      by_cases hl : env.live pid
      · by_cases hc : is_chopsticks_process env pid
        · simp [htxt, hp, hl, hc]
        · by_cases h : env.lsofOk <;> simp [htxt, hp, hl, hc, h]
      · by_cases h : env.lsofOk <;> simp [htxt, hp, hl, h]

/-- C3: `cleanup_stale_files` never signals a process whose command line does
not match the chopsticks daemon signature: every signalled pid matches the
signature and holds the configured port, and a live PID-file pid that is
foreign only loses the PID file and is never signalled. -/
theorem cleanup_stale_files_safety (env : DaemonEnv) (files : DaemonFiles) :
    (∀ pid ∈ (cleanup_stale_files env files).2, is_chopsticks_process env pid = true)
    ∧ (∀ pid ∈ (cleanup_stale_files env files).2, pid ∈ env.portPids)
    ∧ (∀ txt pid, files.pidFileText = some txt → pyParseInt txt = some pid →
        env.live pid = true → is_chopsticks_process env pid = false →
        (cleanup_stale_files env files).1.pidFileText = Option.none
          ∧ pid ∉ (cleanup_stale_files env files).2) := by
  refine ⟨?_, ?_, ?_⟩
  · intro pid hmem
    rcases cleanup_signalled_cases env files with h | h
    · rw [h] at hmem; cases hmem
    · rw [h] at hmem
      exact (List.mem_filter.mp hmem).2
  · intro pid hmem
    rcases cleanup_signalled_cases env files with h | h
    · rw [h] at hmem; cases hmem
    · rw [h] at hmem
      exact (List.mem_filter.mp hmem).1
  · intro txt pid htxt hparse hlive hforeign
    have hstep : cleanup_stale_files env files
        = portCleanup env { files with pidFileText := Option.none } := by
      unfold cleanup_stale_files
      rw [htxt]
      simp [hparse, hlive, hforeign]
    constructor
    · rw [hstep]; rfl
    · rw [hstep]
      unfold portCleanup
      by_cases h : env.lsofOk
      · simp [h, List.mem_filter, hforeign]
      · simp [h]

/-! ## Action-outcome accessors -/

/-- The result mapping of a successful action (empty for failures). -/
def resultsOf : ActionOutcome → List (String × PyVal)
  | .results r => r
  | _ => []

/-- Whether the action called `event.set_results` (i.e. succeeded). -/
def isResults : ActionOutcome → Bool
  | .results _ => true
  | _ => false

/-- `set_ready_status` only rewrites the presentation status. -/
@[simp] theorem set_ready_status_peerRel (env : CharmEnv) (s : CharmState) :
    (set_ready_status env s).peerRel = s.peerRel := by
  unfold set_ready_status
  dsimp only
  repeat' split
  all_goals rfl

/-- `set_ready_status` leaves the services untouched. -/
@[simp] theorem set_ready_status_services (env : CharmEnv) (s : CharmState) :
    (set_ready_status env s).services = s.services := by
  unfold set_ready_status
  dsimp only
  repeat' split
  all_goals rfl

/-- `set_ready_status` leaves the tracked directories untouched. -/
@[simp] theorem set_ready_status_dirs (env : CharmEnv) (s : CharmState) :
    (set_ready_status env s).dirs = s.dirs := by
  unfold set_ready_status
  dsimp only
  repeat' split
  all_goals rfl

/-! ## C10: stop-test from idle -/

/-- C10: on the leader, `stop-test` succeeds with no test running: from
`test_state = idle` and no recorded run it still stops both leader service
variants, sets `test_state` to `"stopped"`, and returns
`test-run-id = "unknown"`. -/
theorem stop_test_idle_succeeds (env : CharmEnv) (s : CharmState) (d : Databag)
    (hLeader : env.isLeader = true)
    (hRel : s.peerRel = some d)
    (hIdle : get_peer_data s "test_state" "idle" = "idle")
    (hNoRun : dbGet d "test_run_id" = Option.none) :
    (on_stop_test_action env s).1
      = .results [("status", PyVal.str "stopped"), ("test-run-id", PyVal.str "unknown")]
    ∧ get_peer_data (on_stop_test_action env s).2 "test_state" "idle" = "stopped"
    ∧ (on_stop_test_action env s).2.services.leader = false
    ∧ (on_stop_test_action env s).2.services.leaderWebui = false := by
  refine ⟨?_, ?_, ?_, ?_⟩ <;>
    simp [on_stop_test_action, hLeader, hNoRun, set_peer_data, hRel, get_peer_data,
      dbGet_dbSet_same, stopService, LEADER_SERVICE, LEADER_WEBUI_SERVICE, WORKER_SERVICE]

/-! ## C6: leader-only actions on a non-leader -/

/-- C6: on a non-leader unit, `start-test`, `stop-test` and `fetch-metrics`
fail with a message containing `"leader"` and leave the state untouched,
while `test-status` succeeds and reports `is-leader = false`. -/
theorem non_leader_actions (env : CharmEnv) (freshId : String)
    (params : String → PyVal) (s : CharmState)
    (hNotLeader : env.isLeader = false) :
    on_start_test_action env freshId params s
      = (.fail "start-test must be run on the leader unit", s)
    ∧ strContains "start-test must be run on the leader unit" "leader" = true
    ∧ on_stop_test_action env s = (.fail "stop-test must be run on the leader unit", s)
    ∧ strContains "stop-test must be run on the leader unit" "leader" = true
    ∧ on_fetch_metrics_action env params s
      = (.fail "fetch-metrics must be run on the leader unit", s)
    ∧ strContains "fetch-metrics must be run on the leader unit" "leader" = true
    ∧ (on_test_status_action env s).2 = s
    ∧ (∀ env2 : CharmEnv, ∀ s2 : CharmState,
        isResults (on_test_status_action env2 s2).1 = true)
    ∧ ("is-leader", PyVal.bool false) ∈ resultsOf (on_test_status_action env s).1 := by
  refine ⟨?_, by decide, ?_, by decide, ?_, by decide, rfl, fun env2 s2 => rfl, ?_⟩
  · simp [on_start_test_action, hNotLeader]
  · simp [on_stop_test_action, hNotLeader]
  · simp [on_fetch_metrics_action, hNotLeader]
  · simp [on_test_status_action, resultsOf, hNotLeader]

/-! ## C2: leader-elected -/

/-- C2: on `leader-elected` (on the new leader, with a known private IP and
the peer relation present), all three workload services are stopped, the
unit's private address and id are published as `leader_address` /
`leader_unit`, and `test_state` becomes `"failed"` exactly when it was
`"running"`, else `"idle"`. -/
theorem leader_elected_effects (env : CharmEnv) (s : CharmState) (d : Databag)
    (hLeader : env.isLeader = true)
    (hRel : s.peerRel = some d)
    (hIp : (env.privateIp == "") = false) :
    (on_leader_elected env s).services.leader = false
    ∧ (on_leader_elected env s).services.leaderWebui = false
    ∧ (on_leader_elected env s).services.worker = false
    ∧ get_peer_data (on_leader_elected env s) "leader_address" "" = env.privateIp
    ∧ get_peer_data (on_leader_elected env s) "leader_unit" "" = env.unitName
    ∧ get_peer_data (on_leader_elected env s) "test_state" "idle"
      = (if (dbGet d "test_state").getD "idle" == "running" then "failed" else "idle") := by
  obtain ⟨rel, sv, dirs0, arch, st⟩ := s
  simp only [CharmState.peerRel] at hRel
  subst hRel
  by_cases hrun : ((dbGet d "test_state").getD "idle") = "running" <;>
    simp [on_leader_elected, stop_all_services, stopService, publish_leader_address,
      set_peer_data, get_peer_data, dbGet_dbSet, hLeader, hIp, hrun,
      LEADER_SERVICE, LEADER_WEBUI_SERVICE, WORKER_SERVICE]

/-! ## C5: start-test with a missing scenario file -/

/-- C5: on the leader with valid config, a non-running state and parsing
numeric parameters, a `scenario-file` that does not resolve to an existing
regular file makes `start-test` fail and return the state entirely unchanged:
no run id is recorded anywhere, no run directory is created, the peer databag
is untouched. -/
theorem start_test_missing_scenario (env : CharmEnv) (freshId : String)
    (params : String → PyVal) (s : CharmState)
    (hLeader : env.isLeader = true)
    (hConfig : is_config_valid env.config = true)
    (hNotRunning : (get_peer_data s "test_state" "idle" == "running") = false)
    (usersInt : ℤ)
    (hUsers : pyToInt (pyOr (params "users") (env.config "locust-users")) = some usersInt)
    (rate : ℚ)
    (hRate : pyToFloat (pyOr (params "spawn-rate") (env.config "locust-spawn-rate"))
      = some rate)
    (sc : String)
    (hSc : pyOr (params "scenario-file") (env.config "scenario-file") = PyVal.str sc)
    (hNoFile : env.isFile (joinPath REPO_DIR sc) = false) :
    on_start_test_action env freshId params s
      = (.fail ("Scenario file not found: " ++ joinPath REPO_DIR sc), s) := by
  simp [on_start_test_action, hLeader, hConfig, hNotRunning, hUsers, hRate, hSc, hNoFile]

/-! ## Concrete fixtures for witnesses and counterexamples -/

/-- A valid charm config with numeric locust defaults. -/
def validConfig : String → PyVal := fun k =>
  if k == "s3-endpoint" then .str "http://10.0.0.1:80"
  else if k == "s3-access-key" then .str "AK"
  else if k == "s3-secret-key" then .str "SK"
  else if k == "locust-users" then .str "7"
  else if k == "locust-spawn-rate" then .str "2"
  else if k == "locust-duration" then .str "5m"
  else .none

/-- A leader unit's environment with one scenario file installed. -/
def leaderEnv : CharmEnv where
  isLeader := true
  config := validConfig
  peerUnitCount := 2
  privateIp := "10.0.0.1"
  unitName := "chopsticks/0"
  isFile := fun p => p == "/opt/chopsticks/src/scenarios/test.py"
  listDir := fun _ => []
  fileText := fun _ => ""
  startOk := fun _ => true
  subprocessErr := ""
  showFloat := fun _ => ""

/-- The same host as a non-leader. -/
def workerEnv : CharmEnv := { leaderEnv with isLeader := false }

/-- A unit with the peer relation present and an empty databag. -/
def emptyBagState : CharmState where
  peerRel := some []
  services := ⟨false, false, false⟩
  dirs := []
  archives := []
  unitStatus := .active ""

/-- A unit observing a running test in the databag. -/
def runningBag : Databag := [("test_state", "running"), ("test_run_id", "old-run")]

/-- State whose databag says a test is running. -/
def runningState : CharmState := { emptyBagState with peerRel := some runningBag }

/-- Witness for C10: concrete leader, empty databag. -/
theorem stop_test_idle_succeeds_witness :
    (on_stop_test_action leaderEnv emptyBagState).1
      = .results [("status", PyVal.str "stopped"), ("test-run-id", PyVal.str "unknown")]
    ∧ get_peer_data (on_stop_test_action leaderEnv emptyBagState).2 "test_state" "idle"
      = "stopped"
    ∧ (on_stop_test_action leaderEnv emptyBagState).2.services.leader = false
    ∧ (on_stop_test_action leaderEnv emptyBagState).2.services.leaderWebui = false :=
  stop_test_idle_succeeds leaderEnv emptyBagState [] rfl rfl rfl rfl

/-- Witness for C6: concrete non-leader unit. -/
theorem non_leader_actions_witness :
    on_start_test_action workerEnv "run-w" (fun _ => PyVal.none) emptyBagState
      = (.fail "start-test must be run on the leader unit", emptyBagState)
    ∧ strContains "start-test must be run on the leader unit" "leader" = true
    ∧ on_stop_test_action workerEnv emptyBagState
      = (.fail "stop-test must be run on the leader unit", emptyBagState)
    ∧ strContains "stop-test must be run on the leader unit" "leader" = true
    ∧ on_fetch_metrics_action workerEnv (fun _ => PyVal.none) emptyBagState
      = (.fail "fetch-metrics must be run on the leader unit", emptyBagState)
    ∧ strContains "fetch-metrics must be run on the leader unit" "leader" = true
    ∧ (on_test_status_action workerEnv emptyBagState).2 = emptyBagState
    ∧ (∀ env2 : CharmEnv, ∀ s2 : CharmState,
        isResults (on_test_status_action env2 s2).1 = true)
    ∧ ("is-leader", PyVal.bool false)
      ∈ resultsOf (on_test_status_action workerEnv emptyBagState).1 :=
  non_leader_actions workerEnv "run-w" (fun _ => PyVal.none) emptyBagState rfl

/-- Witness for C2: a new leader taking over during a running test. -/
theorem leader_elected_effects_witness :
    (on_leader_elected leaderEnv runningState).services.leader = false
    ∧ (on_leader_elected leaderEnv runningState).services.leaderWebui = false
    ∧ (on_leader_elected leaderEnv runningState).services.worker = false
    ∧ get_peer_data (on_leader_elected leaderEnv runningState) "leader_address" ""
      = leaderEnv.privateIp
    ∧ get_peer_data (on_leader_elected leaderEnv runningState) "leader_unit" ""
      = leaderEnv.unitName
    ∧ get_peer_data (on_leader_elected leaderEnv runningState) "test_state" "idle"
      = (if (dbGet runningBag "test_state").getD "idle" == "running"
          then "failed" else "idle") :=
  leader_elected_effects leaderEnv runningState runningBag rfl rfl (by decide)

/-- Parameters naming a scenario file that is not installed. -/
def missingScenarioParams : String → PyVal := fun k =>
  if k == "scenario-file" then .str "scenarios/absent.py" else .none

/-- Witness for C5: concrete missing scenario file. -/
theorem start_test_missing_scenario_witness :
    on_start_test_action leaderEnv "run-5" missingScenarioParams emptyBagState
      = (.fail ("Scenario file not found: " ++ joinPath REPO_DIR "scenarios/absent.py"),
         emptyBagState) :=
  start_test_missing_scenario leaderEnv "run-5" missingScenarioParams emptyBagState
    rfl (by decide) (by decide) 7 (by decide) 2 (by decide) "scenarios/absent.py"
    (by decide) (by decide)

/-- A host where pid 42 is a live foreign process that also holds the port,
and pid 99 is a live orphaned chopsticks daemon holding the port. -/
def staleDaemonEnv : DaemonEnv where
  live := fun p => p == 42 || p == 99
  argv := fun p =>
    if p == 99 then some ["python3", "-m", "chopsticks.metrics.server_daemon"]
    else if p == 42 then some ["/usr/sbin/nginx"]
    else Option.none
  portPids := [42, 99]
  lsofOk := true

/-- Control files left behind, with the PID file naming the foreign pid. -/
def staleDaemonFiles : DaemonFiles where
  pidFileText := some "42"
  stateFile := true
  socketFile := true

/-- Witness for C3: the foreign pid 42 loses the PID file and is not
signalled. -/
theorem cleanup_stale_files_safety_witness :
    (cleanup_stale_files staleDaemonEnv staleDaemonFiles).1.pidFileText = Option.none
    ∧ 42 ∉ (cleanup_stale_files staleDaemonEnv staleDaemonFiles).2 :=
  (cleanup_stale_files_safety staleDaemonEnv staleDaemonFiles).2.2 "42" 42 rfl
    (by decide) (by decide) (by decide)

/-! ## C1: numeric parameter validation (corrected)

The source checks only that `int(users)` and `float(spawn_rate)` succeed
(`charm.py` lines 286-292); it never checks positivity, and a falsy `users`
parameter (`0`) is replaced by the configured `locust-users` default before
conversion (`users = event.params.get("users") or self.config.get(...)`). -/

/-- Parameters with `users = 0` (falsy, so the config default `"7"` wins). -/
def zeroUsersParams : String → PyVal := fun k =>
  if k == "users" then .int 0
  else if k == "spawn-rate" then .str "1.5"
  else if k == "scenario-file" then .str "scenarios/test.py"
  else if k == "duration" then .str "5m"
  else .none

/-- Counterexample to C1 as stated: on a leader with valid configuration, an
idle test state and `users = 0` — which does not parse as a positive
integer — `start-test` does not fail: it starts the test with the configured
default of 7 users and writes `test_state = running` to the databag. -/
theorem start_test_zero_users_counterexample :
    isResults (on_start_test_action leaderEnv "run-1" zeroUsersParams emptyBagState).1
      = true
    ∧ ("status", PyVal.str "started")
      ∈ resultsOf (on_start_test_action leaderEnv "run-1" zeroUsersParams emptyBagState).1
    ∧ ("users", PyVal.int 7)
      ∈ resultsOf (on_start_test_action leaderEnv "run-1" zeroUsersParams emptyBagState).1
    ∧ get_peer_data (on_start_test_action leaderEnv "run-1" zeroUsersParams emptyBagState).2
        "test_state" "idle" = "running" := by decide

/-- C1 (amended): on the leader with valid configuration and `test_state`
not `running`, the action fails with the "must be numeric" message and
leaves the state entirely unchanged exactly when Python's `int()` of the
users value or `float()` of the spawn-rate value (each after the falsy
fallback to the configured default) raises; positivity is never checked, and
`users = 0` is replaced by the configured default before conversion. -/
theorem start_test_invalid_numeric (env : CharmEnv) (freshId : String)
    (params : String → PyVal) (s : CharmState)
    (hLeader : env.isLeader = true)
    (hConfig : is_config_valid env.config = true)
    (hNotRunning : (get_peer_data s "test_state" "idle" == "running") = false)
    (hBad : pyToInt (pyOr (params "users") (env.config "locust-users")) = Option.none
      ∨ pyToFloat (pyOr (params "spawn-rate") (env.config "locust-spawn-rate"))
        = Option.none) :
    on_start_test_action env freshId params s
      = (.fail "Invalid users or spawn-rate; must be numeric", s) := by
  rcases hBad with h | h
  · simp [on_start_test_action, hLeader, hConfig, hNotRunning, h]
  · cases hu : pyToInt (pyOr (params "users") (env.config "locust-users")) <;>
      simp [on_start_test_action, hLeader, hConfig, hNotRunning, hu, h]

/-- Parameters with a non-numeric users value. -/
def abcUsersParams : String → PyVal := fun k =>
  if k == "users" then .str "abc"
  else if k == "spawn-rate" then .str "1.5"
  else .none

/-- Witness for the amended C1: `users = "abc"` fails with the numeric
message and the state is unchanged. -/
theorem start_test_invalid_numeric_witness :
    on_start_test_action leaderEnv "run-2" abcUsersParams emptyBagState
      = (.fail "Invalid users or spawn-rate; must be numeric", emptyBagState) :=
  start_test_invalid_numeric leaderEnv "run-2" abcUsersParams emptyBagState rfl
    (by decide) (by decide) (Or.inl (by decide))

/-! ## C4: start-test / test-status / stop-test round trips -/

/-- Full evaluation of a successful headless `start-test` on the leader: the
run directory is created, the leader service (re)started, and
`test_state = running`, `test_run_id`, `scenario_file` written to the peer
databag in that order. -/
theorem on_start_test_success (env : CharmEnv) (freshId : String)
    (params : String → PyVal) (s : CharmState) (d : Databag)
    (hLeader : env.isLeader = true)
    (hRel : s.peerRel = some d)
    (hConfig : is_config_valid env.config = true)
    (hNotRunning : (get_peer_data s "test_state" "idle" == "running") = false)
    (usersInt : ℤ)
    (hUsers : pyToInt (pyOr (params "users") (env.config "locust-users")) = some usersInt)
    (rate : ℚ)
    (hRate : pyToFloat (pyOr (params "spawn-rate") (env.config "locust-spawn-rate"))
      = some rate)
    (sc : String)
    (hSc : pyOr (params "scenario-file") (env.config "scenario-file") = PyVal.str sc)
    (hFile : env.isFile (joinPath REPO_DIR sc) = true)
    (hHeadless : paramsGetD params "headless" (PyVal.bool true) = PyVal.bool true)
    (hStart : env.startOk LEADER_SERVICE = true) :
    on_start_test_action env freshId params s
      = (.results
          [("test-run-id", PyVal.str freshId), ("status", PyVal.str "started"),
           ("users", PyVal.int usersInt), ("spawn-rate", PyVal.float rate),
           ("duration", pyOr (params "duration") (env.config "locust-duration")),
           ("scenario", PyVal.str sc), ("headless", PyVal.bool true),
           ("metrics-dir", PyVal.str (joinPath DATA_DIR freshId))],
         { s with
            peerRel := some (dbSet (dbSet (dbSet d "test_state" "running")
              "test_run_id" freshId) "scenario_file" sc)
            services := ⟨true, false, s.services.worker⟩
            dirs := if s.dirs.contains (joinPath DATA_DIR freshId) then s.dirs
              else joinPath DATA_DIR freshId :: s.dirs }) := by
  obtain ⟨rel, ⟨svl, svw, svk⟩, dirs0, arch, st⟩ := s
  simp only [CharmState.peerRel] at hRel
  subst hRel
  have hStartLit : env.startOk "chopsticks-leader" = true := hStart
  simp [on_start_test_action, hLeader, hConfig, hNotRunning, hUsers, hRate, hSc,
    hFile, hHeadless, hStartLit, PyVal.truthy, mkdirP, set_peer_data, stopService,
    startServiceEff, LEADER_SERVICE, LEADER_WEBUI_SERVICE, WORKER_SERVICE,
    apply_ite]

/-- C4: a successful `start-test` on the leader returns the fresh run id;
`test-status` on the same unit then reports `test_state = running` with that
same `test_run_id`; a subsequent `stop-test` succeeds, echoes the same run id,
and a final `test-status` reports `test_state = stopped` with the run id
still preserved. -/
theorem start_status_stop_status (env : CharmEnv) (freshId : String)
    (params : String → PyVal) (s : CharmState) (d : Databag)
    (hLeader : env.isLeader = true)
    (hRel : s.peerRel = some d)
    (hConfig : is_config_valid env.config = true)
    (hNotRunning : (get_peer_data s "test_state" "idle" == "running") = false)
    (usersInt : ℤ)
    (hUsers : pyToInt (pyOr (params "users") (env.config "locust-users")) = some usersInt)
    (rate : ℚ)
    (hRate : pyToFloat (pyOr (params "spawn-rate") (env.config "locust-spawn-rate"))
      = some rate)
    (sc : String)
    (hSc : pyOr (params "scenario-file") (env.config "scenario-file") = PyVal.str sc)
    (hFile : env.isFile (joinPath REPO_DIR sc) = true)
    (hHeadless : paramsGetD params "headless" (PyVal.bool true) = PyVal.bool true)
    (hStart : env.startOk LEADER_SERVICE = true) :
    isResults (on_start_test_action env freshId params s).1 = true
    ∧ ("test-run-id", PyVal.str freshId)
      ∈ resultsOf (on_start_test_action env freshId params s).1
    ∧ ("test-state", PyVal.str "running")
      ∈ resultsOf (on_test_status_action env
          (on_start_test_action env freshId params s).2).1
    ∧ ("test-run-id", PyVal.str freshId)
      ∈ resultsOf (on_test_status_action env
          (on_start_test_action env freshId params s).2).1
    ∧ isResults (on_stop_test_action env
          (on_start_test_action env freshId params s).2).1 = true
    ∧ ("test-run-id", PyVal.str freshId)
      ∈ resultsOf (on_stop_test_action env
          (on_start_test_action env freshId params s).2).1
    ∧ ("test-state", PyVal.str "stopped")
      ∈ resultsOf (on_test_status_action env
          (on_stop_test_action env
            (on_start_test_action env freshId params s).2).2).1
    ∧ ("test-run-id", PyVal.str freshId)
      ∈ resultsOf (on_test_status_action env
          (on_stop_test_action env
            (on_start_test_action env freshId params s).2).2).1 := by
  rw [on_start_test_success env freshId params s d hLeader hRel hConfig hNotRunning
    usersInt hUsers rate hRate sc hSc hFile hHeadless hStart]
  refine ⟨rfl, by simp [resultsOf], ?_, ?_, ?_, ?_, ?_, ?_⟩ <;>
    simp [on_test_status_action, on_stop_test_action, resultsOf, isResults,
      get_peer_data, set_peer_data, hLeader, dbGet_dbSet, stopService,
      LEADER_SERVICE, LEADER_WEBUI_SERVICE, WORKER_SERVICE]

/-- Well-formed `start-test` parameters naming the installed scenario. -/
def goodParams : String → PyVal := fun k =>
  if k == "users" then .str "3"
  else if k == "spawn-rate" then .str "2"
  else if k == "duration" then .str "5m"
  else if k == "scenario-file" then .str "scenarios/test.py"
  else .none

/-- Witness for C4 at a concrete leader with an empty databag. -/
theorem start_status_stop_status_witness :
    isResults (on_start_test_action leaderEnv "run-4" goodParams emptyBagState).1 = true
    ∧ ("test-run-id", PyVal.str "run-4")
      ∈ resultsOf (on_start_test_action leaderEnv "run-4" goodParams emptyBagState).1
    ∧ ("test-state", PyVal.str "running")
      ∈ resultsOf (on_test_status_action leaderEnv
          (on_start_test_action leaderEnv "run-4" goodParams emptyBagState).2).1
    ∧ ("test-run-id", PyVal.str "run-4")
      ∈ resultsOf (on_test_status_action leaderEnv
          (on_start_test_action leaderEnv "run-4" goodParams emptyBagState).2).1
    ∧ isResults (on_stop_test_action leaderEnv
          (on_start_test_action leaderEnv "run-4" goodParams emptyBagState).2).1 = true
    ∧ ("test-run-id", PyVal.str "run-4")
      ∈ resultsOf (on_stop_test_action leaderEnv
          (on_start_test_action leaderEnv "run-4" goodParams emptyBagState).2).1
    ∧ ("test-state", PyVal.str "stopped")
      ∈ resultsOf (on_test_status_action leaderEnv
          (on_stop_test_action leaderEnv
            (on_start_test_action leaderEnv "run-4" goodParams emptyBagState).2).2).1
    ∧ ("test-run-id", PyVal.str "run-4")
      ∈ resultsOf (on_test_status_action leaderEnv
          (on_stop_test_action leaderEnv
            (on_start_test_action leaderEnv "run-4" goodParams emptyBagState).2).2).1 :=
  start_status_stop_status leaderEnv "run-4" goodParams emptyBagState [] rfl rfl
    (by decide) (by decide) 3 (by decide) (2 : ℚ) (by decide) "scenarios/test.py"
    (by decide) (by decide) (by decide) (by decide)

/-! ## C7: counter total equals the number of ingested records -/

/-- Folding records through `add_operation_metric` appends one `(1, labels)`
observation per record to the counter family. -/
theorem ingest_totalVals_aux (ms : List OperationMetric) (e : PrometheusExporter) :
    (ms.foldl (fun e m => add_operation_metric m e) e).totalVals
      = e.totalVals ++ ms.map (fun m => ((1 : ℚ), labelsOf m)) := by
  induction ms generalizing e with
  | nil => simp
  | cons m rest ih =>
    rw [List.foldl_cons, ih]
    simp [add_operation_metric]

/-- The counter observations after ingesting `ms` from the empty exporter. -/
theorem ingest_totalVals (ms : List OperationMetric) :
    (ingest ms).totalVals = ms.map (fun m => ((1 : ℚ), labelsOf m)) := by
  simpa [ingest, emptyExporter] using ingest_totalVals_aux ms emptyExporter

/-- `bumpAt` adds the new value to the total over all groups. -/
theorem bumpAt_sum (acc : List (String × ℚ)) (k : String) (v : ℚ) :
    ((bumpAt acc k v).map Prod.snd).sum = (acc.map Prod.snd).sum + v := by
  induction acc with
  | nil => simp [bumpAt]
  | cons p rest ih =>
    by_cases h : p.1 = k
    · simp [bumpAt, h]
      ring
    · simp [bumpAt, h, ih]
      ring

/-- The grouped counter totals sum to the sum of the raw values. -/
theorem counterGroups_sum_aux (vs : List (ℚ × List (String × String)))
    (acc : List (String × ℚ)) :
    (((vs.foldl (fun acc p => bumpAt acc (format_labels p.2) p.1) acc)).map
        Prod.snd).sum
      = (acc.map Prod.snd).sum + (vs.map Prod.fst).sum := by
  induction vs generalizing acc with
  | nil => simp
  | cons p rest ih => simp [ih, bumpAt_sum]; ring

/-- C7: after ingesting any `N` operation records, the rendered
`chopsticks_operation_total` values (one per label set, exactly the grouped
totals `counterGroups` that `format_counter_lines` prints) sum to `N` over
all label sets. -/
theorem operation_total_sums_to_count (ms : List OperationMetric) :
    ((counterGroups (ingest ms).totalVals).map Prod.snd).sum = (ms.length : ℚ) := by
  have h := counterGroups_sum_aux ((ingest ms).totalVals) []
  rw [counterGroups, h, ingest_totalVals]
  have hconst : ∀ l : List OperationMetric,
      (List.map (Prod.fst ∘ fun m => ((1 : ℚ), labelsOf m)) l).sum = (l.length : ℚ) := by
    intro l
    induction l with
    | nil => simp
    | cons a t ih =>
      simp [Function.comp, ih]
      ring
  simp [List.map_map, hconst ms]

/-! ## C8: duration-histogram rendering (refinement against the spec text) -/

/-- The spec's bucket upper bounds for `operation_duration_seconds`:
`{0.01, 0.05, 0.1, 0.5, 1.0, 2.0, 5.0, 10.0}`, ascending, with `+Inf`
rendered after them. -/
def specDurationBounds : List ℚ := [0.01, 0.05, 0.1, 0.5, 1.0, 2.0, 5.0, 10.0]

/-- Spec-side rendering of the duration histogram, written from the spec's
words: a HELP line and a TYPE line for
`chopsticks_operation_duration_seconds`; then, per label set, one bucket line
per upper bound in ascending `le` order over exactly the spec's bounds, where
each bucket count is the number of observed durations less than or equal to
that bound; then the `+Inf` bucket carrying the `_count` value, and `_sum` and
`_count` lines for that label set. -/
def specDurationHistogramLines (values : List (ℚ × List (String × String)))
    (showVal : ℚ → String) : List String :=
  let fullName := "chopsticks_operation_duration_seconds"
  ["# HELP " ++ fullName ++ " Duration of operations in seconds",
   "# TYPE " ++ fullName ++ " histogram"]
    ++ (histGroups values).flatMap (fun g =>
      let countValue := g.2.length
      (specDurationBounds.map fun b =>
        fullName ++ "_bucket" ++ spliceLe g.1 (showVal b) ++ " "
          ++ toString (g.2.filter (fun v => decide (v ≤ b))).length)
      ++ [fullName ++ "_bucket" ++ spliceLe g.1 "+Inf" ++ " " ++ toString countValue,
          fullName ++ "_sum" ++ g.1 ++ " " ++ showVal (pySum g.2),
          fullName ++ "_count" ++ g.1 ++ " " ++ toString countValue])

/-- Sorting the observations first does not change how many fall under a
bucket bound. -/
theorem sorted_filter_length (l : List ℚ) (p : ℚ → Bool) :
    ((l.insertionSort (· ≤ ·)).filter p).length = (l.filter p).length :=
  ((List.perm_insertionSort _ l).filter p).length_eq

/-- `add_operation_metric` never touches the namespace. -/
theorem ingest_nspace_aux (ms : List OperationMetric) (e : PrometheusExporter) :
    (ms.foldl (fun e m => add_operation_metric m e) e).nspace = e.nspace := by
  induction ms generalizing e with
  | nil => rfl
  | cons m rest ih =>
    rw [List.foldl_cons, ih]
    rfl

/-- The namespace after ingestion is the constructor default `"chopsticks"`. -/
theorem ingest_nspace (ms : List OperationMetric) : (ingest ms).nspace = "chopsticks" :=
  ingest_nspace_aux ms emptyExporter

/-- C8: for every sequence of ingested records (and every float rendering),
the duration-histogram family rendered by `export` coincides, line for line,
with the spec-side rendering `specDurationHistogramLines`; moreover the bucket
bounds used are strictly ascending, and every rendered label set lists its
keys in sorted order (`driver`, `operation`, `success`, `workload`). -/
theorem duration_histogram_matches_spec (ms : List OperationMetric)
    (showVal : ℚ → String) :
    duration_family_lines (ingest ms) showVal
      = specDurationHistogramLines (ingest ms).durationVals showVal
    ∧ List.Chain' (· < ·) durationBuckets
    ∧ ∀ m : OperationMetric,
        (sortByKey (labelsOf m)).map Prod.fst
          = ["driver", "operation", "success", "workload"] := by
  refine ⟨?_, ?_, ?_⟩
  · unfold duration_family_lines format_histogram_lines specDurationHistogramLines
    rw [ingest_nspace]
    dsimp only
    simp only [sorted_filter_length]
    rfl
  · simp [durationBuckets, List.chain'_cons]
    norm_num
  · intro m
    simp +decide [labelsOf, sortByKey, insertByKey, strLe, charsLe]
